import Mathlib

/-!
Verification development for the student risk-scoring core:
rule-based baseline classifier, risk fusion, bot-path risk update,
recommendation engine and counselor assignment, shallowly embedded
from the backend source.
-/

namespace SOS

/-- Risk levels, from models/student.py. -/
inductive RiskLevel
  | green
  | yellow
  | red
deriving DecidableEq, Repr

/-- A student record: the fields of models/student.py that the scoring,
recommendation and assignment code reads or writes.  Numeric columns are
nullable in the database, so they are embedded as Option values; floats
become rationals. -/
structure Student where
  id : Nat
  attendance_percentage : Option ℚ
  cgpa : Option ℚ
  backlogs : Option ℤ
  fees_pending : Option Bool
  fees_amount_due : Option ℚ
  quiz_score_avg : Option ℚ
  bot_engagement_score : Option ℚ
  counselling_sessions : Option ℤ
  semester : Option ℤ
  cluster_id : Option ℤ
  baseline_risk : RiskLevel
  final_risk : RiskLevel
  ml_risk_score : ℚ
  dropout_probability : ℚ
  stage : Nat
deriving DecidableEq, Repr

/-- The None-default block at the top of ml/rules.py calculate_baseline_risk:
each missing field is overwritten in place with its neutral default
(0 for attendance, cgpa, backlogs and fees, False for fees_pending,
50 for engagement and quiz).  Other fields are untouched. -/
def normalizeStudent (student : Student) : Student :=
  { student with
    attendance_percentage := some (student.attendance_percentage.getD 0)
    cgpa := some (student.cgpa.getD 0)
    backlogs := some (student.backlogs.getD 0)
    fees_pending := some (student.fees_pending.getD false)
    fees_amount_due := some (student.fees_amount_due.getD 0)
    bot_engagement_score := some (student.bot_engagement_score.getD 50)
    quiz_score_avg := some (student.quiz_score_avg.getD 50) }

/-- Risk factor strings appended by ml/rules.py, one constructor per
distinct message; interpolated numeric values are carried as payload. -/
inductive Factor
  | criticalAttendance (v : ℚ)
  | veryLowAttendance (v : ℚ)
  | belowMinAttendance (v : ℚ)
  | attendanceCouldImprove (v : ℚ)
  | criticalCgpa (v : ℚ)
  | veryLowCgpa (v : ℚ)
  | belowAvgCgpa (v : ℚ)
  | cgpaNeedsImprovement (v : ℚ)
  | highBacklogs (n : ℤ)
  | multipleBacklogs (n : ℤ)
  | hasBacklogs (n : ℤ)
  | majorFeePending (v : ℚ)
  | significantFeePending (v : ℚ)
  | feePending (v : ℚ)
  | minorFeePending (v : ℚ)
  | veryLowEngagement
  | lowEngagement
  | poorQuizPerformance (v : ℚ)
  | noSignificantRisk
deriving DecidableEq, Repr

/-- Attendance band of ml/rules.py: each branch adds its points and appends
its factor. -/
def attendanceBand (a : ℚ) : Nat × Option Factor :=
  if a < 50 then (4, some (Factor.criticalAttendance a))
  else if a < 65 then (3, some (Factor.veryLowAttendance a))
  else if a < 75 then (2, some (Factor.belowMinAttendance a))
  else if a < 85 then (1, some (Factor.attendanceCouldImprove a))
  else (0, none)

/-- CGPA band of ml/rules.py. -/
def cgpaBand (g : ℚ) : Nat × Option Factor :=
  if g < 4 then (4, some (Factor.criticalCgpa g))
  else if g < 5 then (3, some (Factor.veryLowCgpa g))
  else if g < 6 then (2, some (Factor.belowAvgCgpa g))
  else if g < 7 then (1, some (Factor.cgpaNeedsImprovement g))
  else (0, none)

/-- Backlog band of ml/rules.py. -/
def backlogsBand (b : ℤ) : Nat × Option Factor :=
  if b ≥ 5 then (4, some (Factor.highBacklogs b))
  else if b ≥ 3 then (3, some (Factor.multipleBacklogs b))
  else if b ≥ 1 then (2, some (Factor.hasBacklogs b))
  else (0, none)

/-- Financial band of ml/rules.py: only contributes when fees_pending. -/
def feesBand (pending : Bool) (amount : ℚ) : Nat × Option Factor :=
  if pending then
    if amount > 100000 then (4, some (Factor.majorFeePending amount))
    else if amount > 50000 then (3, some (Factor.significantFeePending amount))
    else if amount > 20000 then (2, some (Factor.feePending amount))
    else (1, some (Factor.minorFeePending amount))
  else (0, none)

/-- Engagement band of ml/rules.py. -/
def engagementBand (e : ℚ) : Nat × Option Factor :=
  if e < 20 then (2, some Factor.veryLowEngagement)
  else if e < 40 then (1, some Factor.lowEngagement)
  else (0, none)

/-- Quiz band of ml/rules.py. -/
def quizBand (q : ℚ) : Nat × Option Factor :=
  if q < 30 then (1, some (Factor.poorQuizPerformance q))
  else (0, none)

/-- The six threshold bands of ml/rules.py in evaluation order
(attendance, cgpa, backlogs, fees, engagement, quiz), evaluated on the
normalized snapshot. -/
def bandOutputs (student : Student) : List (Nat × Option Factor) :=
  let s := normalizeStudent student
  [attendanceBand (s.attendance_percentage.getD 0),
   cgpaBand (s.cgpa.getD 0),
   backlogsBand (s.backlogs.getD 0),
   feesBand (s.fees_pending.getD false) (s.fees_amount_due.getD 0),
   engagementBand (s.bot_engagement_score.getD 0),
   quizBand (s.quiz_score_avg.getD 0)]

/-- The accumulated risk_score of ml/rules.py. -/
def riskScore (student : Student) : Nat :=
  ((bandOutputs student).map Prod.fst).sum

/-- The risk_factors list of ml/rules.py before the final-green check:
the factors appended by the bands, in evaluation order. -/
def bandFactors (student : Student) : List Factor :=
  (bandOutputs student).filterMap Prod.snd

/-- ml/rules.py calculate_baseline_risk.  Returns (risk level, factors)
together with the post-call state of the student object, since the
None-default block mutates the argument in place. -/
def calculate_baseline_risk (student : Student) :
    RiskLevel × List Factor × Student :=
  let s := normalizeStudent student
  let score := riskScore student
  let factors := bandFactors student
  if score ≥ 8 then (RiskLevel.red, factors, s)
  else if score ≥ 4 then (RiskLevel.yellow, factors, s)
  else if factors.isEmpty then (RiskLevel.green, [Factor.noSignificantRisk], s)
  else (RiskLevel.green, factors, s)

/-- routes/students.py _set_risk_fields: writes baseline risk, the ml
score fields, optionally the cluster id, then fuses rule and ML outputs
into final_risk and stage with the 0.7 and 0.4 thresholds. -/
def set_risk_fields (student : Student) (baseline_risk : RiskLevel)
    (ml_prob : ℚ) (cluster_id : Option ℤ) : Student :=
  let st := { student with
    baseline_risk := baseline_risk
    ml_risk_score := ml_prob * 100
    dropout_probability := ml_prob
    cluster_id := match cluster_id with
      | some c => some c
      | none => student.cluster_id }
  if ml_prob ≥ mkRat 7 10 ∨ baseline_risk = RiskLevel.red then
    { st with final_risk := RiskLevel.red, stage := 3 }
  else if ml_prob ≥ mkRat 4 10 ∨ baseline_risk = RiskLevel.yellow then
    { st with final_risk := RiskLevel.yellow, stage := 2 }
  else
    { st with final_risk := RiskLevel.green, stage := 1 }

/-- routes/bot.py _compute_final_risk_and_stage: maps the dropout
probability alone to final_risk and stage with the 0.3 and 0.6
thresholds. -/
def compute_final_risk_and_stage (student : Student) (probability : ℚ) :
    Student :=
  let st := { student with
    dropout_probability := probability
    ml_risk_score := probability * 100 }
  if probability < mkRat 3 10 then
    { st with final_risk := RiskLevel.green, stage := 1 }
  else if probability < mkRat 6 10 then
    { st with final_risk := RiskLevel.yellow, stage := 2 }
  else
    { st with final_risk := RiskLevel.red, stage := 3 }

/-- The risk part of routes/students.py create_student: runs the baseline
rules on the fresh record (mutating it), stores the baseline as both
baseline_risk and final_risk, and leaves stage at its column default. -/
def create_student (student_in : Student) : Student :=
  let r := calculate_baseline_risk student_in
  { r.2.2 with baseline_risk := r.1, final_risk := r.1 }

/-- ml/prediction.py DropoutPredictor.extract_features: reads the nine
feature fields raw, with no None-normalization.  fees_pending is coerced
through Python truthiness (None and False both give 0); every other
missing field makes the extraction, and hence predict, fail. -/
def extract_features (student : Student) : Option (List ℚ) := do
  let a ← student.attendance_percentage
  let c ← student.cgpa
  let b ← student.backlogs
  let fp : ℚ := match student.fees_pending with
    | some true => 1
    | _ => 0
  let fa ← student.fees_amount_due
  let q ← student.quiz_score_avg
  let e ← student.bot_engagement_score
  let cs ← student.counselling_sessions
  let sem ← student.semester
  pure [a, c, (b : ℚ), fp, fa / 100000, q, e, (cs : ℚ), (sem : ℚ)]

/-- A counselor record: the fields of models/user.py that the assignment
code reads. -/
structure Counselor where
  id : Nat
  specialization : Option String
deriving DecidableEq, Repr

/-- Python truthiness fallback `x or d` for an optional rational: None
and 0 are both falsy, so either yields the default. -/
def pyOrQ (o : Option ℚ) (d : ℚ) : ℚ :=
  match o with
  | some v => if v = 0 then d else v
  | none => d

/-- Python truthiness fallback `x or d` for an optional integer. -/
def pyOrZ (o : Option ℤ) (d : ℤ) : ℤ :=
  match o with
  | some v => if v = 0 then d else v
  | none => d

/-- routes/admin_counselors.py classify_student_area: cluster-id rules
first, then the attribute heuristics written with Python `or` defaults. -/
def classify_student_area (student : Student) : String :=
  if student.cluster_id = some 1 then "academic"
  else if student.cluster_id = some 2 then "financial"
  else if student.cluster_id = some 3 then "attendance"
  else if student.fees_pending.getD false ∨ pyOrQ student.fees_amount_due 0 > 0 then
    "financial"
  else if pyOrZ student.backlogs 0 ≥ 2 ∨ pyOrQ student.cgpa 10 < 6 then
    "academic"
  else if pyOrQ student.attendance_percentage 100 < 75 ∨
      pyOrQ student.bot_engagement_score 100 < 40 then
    "attendance"
  else "general"

/-- Python whitespace characters removed by str.strip. -/
def isSpaceChar (c : Char) : Bool :=
  c = ' ' ∨ c = '\t' ∨ c = '\n' ∨ c = '\r'

/-- Python str.strip at the character-list level. -/
def stripChars (l : List Char) : List Char :=
  ((l.dropWhile isSpaceChar).reverse.dropWhile isSpaceChar).reverse

/-- Python str.lower at the character-list level (ASCII). -/
def lowerChars (l : List Char) : List Char :=
  l.map Char.toLower

/-- The normalized specialization key of routes/admin_counselors.py:
the specialization string (missing mapped to the empty string) stripped
and lowercased, with an empty result mapped to general. -/
def specKey (c : Counselor) : String :=
  let k := String.mk (lowerChars (stripChars (c.specialization.getD "").data))
  if k = "" then "general" else k

/-- The spec_map pool for an area: the counselors whose normalized
specialization equals the area, in roster order (the dict built by
build_specialized_assignment groups counselors preserving order). -/
def specPool (counselors : List Counselor) (area : String) : List Counselor :=
  counselors.filter (fun c => specKey c = area)

/-- The pool a student is routed within: the specialization pool for the
student area, falling back to the full roster when that pool is empty. -/
def counselorPool (counselors : List Counselor) (s : Student) : List Counselor :=
  let p := specPool counselors (classify_student_area s)
  if p.isEmpty then counselors else p

/-- The counselor a student is routed to: index student.id mod pool size
within the selected pool. -/
def routedCounselor (counselors : List Counselor) (s : Student) :
    Option Counselor :=
  let pool := counselorPool counselors s
  pool.get? (s.id % pool.length)

/-- Append a student to the list stored under a counselor id. -/
def addStudent (m : List (Nat × List Student)) (k : Nat) (s : Student) :
    List (Nat × List Student) :=
  m.map (fun p => if p.1 = k then (p.1, p.2 ++ [s]) else p)

/-- The loop body of routes/admin_counselors.py
build_specialized_assignment: append the student to the list of its
routed counselor (the loop skips a student only when the pool is empty,
which cannot happen with a non-empty roster). -/
def assignOne (counselors : List Counselor) (m : List (Nat × List Student))
    (s : Student) : List (Nat × List Student) :=
  match routedCounselor counselors s with
  | some c => addStudent m c.id s
  | none => m

/-- routes/admin_counselors.py build_specialized_assignment:
initialize an empty list per counselor id, return it unchanged for an
empty roster, otherwise append each student to its routed counselor. -/
def build_specialized_assignment (counselors : List Counselor)
    (students : List Student) : List (Nat × List Student) :=
  let mapping := counselors.map (fun c => (c.id, ([] : List Student)))
  if counselors.isEmpty then mapping
  else students.foldl (assignOne counselors) mapping

/-- The id of the counselor a student is routed to. -/
def routedId (counselors : List Counselor) (s : Student) : Option Nat :=
  (routedCounselor counselors s).map Counselor.id

/-- Lookup of mapping[k]: the list stored under the first entry with
key k, empty when the key is absent. -/
def assignedList : List (Nat × List Student) → Nat → List Student
  | [], _ => []
  | p :: rest, k => if p.1 = k then p.2 else assignedList rest k

/-- Cluster metadata as passed to the recommendation engine. -/
structure ClusterInfo where
  name : String
  description : String
  typical_issues : List String
  intervention : String
deriving DecidableEq, Repr

/-- Recommendation lines emitted by ml/recommendations.py, one constructor
per distinct message, with interpolated values as payload. -/
inductive Recommendation
  | urgentMeeting
  | dailyAttendanceSms
  | peerBuddy
  | investigateRootCause
  | parentCall24h
  | ptmWithin3Days
  | weeklyAttendanceMonitoring
  | counsellingForAbsence
  | attendanceAlerts
  | weeklyCheckIns
  | attendanceTarget80
  | discussAttendanceImportance
  | intensiveRemedial
  | facultyMentor
  | dailySupervisedStudy
  | focusCurrentSubjects
  | mandatoryRemedial
  | peerTutor
  | studyTimetable
  | targetClearSubjects
  | identifyWeakSubjects
  | connectSubjectTeachers
  | onlineResources
  | backlogClearancePlan
  | supplementaryExams
  | subjectMentors
  | courseLoadReduction
  | prioritizeBacklogs
  | prevYearPapers
  | studyGroup
  | focusClearingBacklogs (n : ℤ)
  | markSupplementaryDates
  | urgentAccountsMeeting
  | govtScholarships
  | educationLoan
  | feeWaiver
  | alumniAssistance
  | feeInstallment
  | meritScholarships
  | stateFeeReimbursement
  | feeDeadlineReminder
  | scholarshipInfo
  | botOutreach
  | gamifiedChallenges
  | engagementRewards
  | motivationalMessages
  | dailyEngagementTargets
  | activityReminders
  | leaderboardHighlight
  | dailyMicroQuizzes
  | quizCompetitions
  | trackQuizWeekly
  | firstCounsellingSession
  | continueCounselling (nextSession : ℤ)
  | clusterProfile (name : String)
  | clusterFocus (intervention : String)
  | priorityHigh
  | priorityMedium

/-- Attendance block of ml/recommendations.py. -/
def attendanceRecs (a : ℚ) : List Recommendation :=
  if a < 50 then
    [.urgentMeeting, .dailyAttendanceSms, .peerBuddy, .investigateRootCause,
     .parentCall24h]
  else if a < 65 then
    [.ptmWithin3Days, .weeklyAttendanceMonitoring, .counsellingForAbsence,
     .attendanceAlerts]
  else if a < 75 then
    [.weeklyCheckIns, .attendanceTarget80, .discussAttendanceImportance]
  else []

/-- CGPA block of ml/recommendations.py. -/
def cgpaRecs (g : ℚ) : List Recommendation :=
  if g < 4 then
    [.intensiveRemedial, .facultyMentor, .dailySupervisedStudy,
     .focusCurrentSubjects]
  else if g < 5 then
    [.mandatoryRemedial, .peerTutor, .studyTimetable, .targetClearSubjects]
  else if g < 6 then
    [.identifyWeakSubjects, .connectSubjectTeachers, .onlineResources]
  else []

/-- Backlog block of ml/recommendations.py. -/
def backlogRecs (b : ℤ) : List Recommendation :=
  if b ≥ 5 then
    [.backlogClearancePlan, .supplementaryExams, .subjectMentors,
     .courseLoadReduction]
  else if b ≥ 3 then
    [.prioritizeBacklogs, .prevYearPapers, .studyGroup]
  else if b ≥ 1 then
    [.focusClearingBacklogs b, .markSupplementaryDates]
  else []

/-- Financial block of ml/recommendations.py. -/
def feesRecs (pending : Bool) (amount : ℚ) : List Recommendation :=
  if pending then
    if amount > 100000 then
      [.urgentAccountsMeeting, .govtScholarships, .educationLoan, .feeWaiver,
       .alumniAssistance]
    else if amount > 50000 then
      [.feeInstallment, .meritScholarships, .stateFeeReimbursement]
    else
      [.feeDeadlineReminder, .scholarshipInfo]
  else []

/-- Engagement block of ml/recommendations.py. -/
def engagementRecs (e : ℚ) : List Recommendation :=
  if e < 30 then
    [.botOutreach, .gamifiedChallenges, .engagementRewards,
     .motivationalMessages]
  else if e < 50 then
    [.dailyEngagementTargets, .activityReminders, .leaderboardHighlight]
  else []

/-- Quiz block of ml/recommendations.py. -/
def quizRecs (q : ℚ) : List Recommendation :=
  if q < 40 then
    [.dailyMicroQuizzes, .quizCompetitions, .trackQuizWeekly]
  else []

/-- Counselling block of ml/recommendations.py: the continue message
carries the next session number, counselling_sessions + 1. -/
def counsellingRecs (n : ℤ) (final_risk : RiskLevel) : List Recommendation :=
  if n = 0 then [.firstCounsellingSession]
  else if n < 3 ∧ final_risk ≠ RiskLevel.green then
    [.continueCounselling (n + 1)]
  else []

/-- The priority tag inserted at position 0 by ml/recommendations.py. -/
def priorityTag (final_risk : RiskLevel) : List Recommendation :=
  match final_risk with
  | RiskLevel.red => [.priorityHigh]
  | RiskLevel.yellow => [.priorityMedium]
  | RiskLevel.green => []

/-- ml/recommendations.py generate_recommendations: the signal blocks in
source order (attendance, cgpa, backlogs, fees, engagement, quiz,
counselling), the two cluster lines appended last, and the priority tag
inserted at the front for red and yellow final risk.  Field reads mirror
the call sites, which always pass a snapshot already normalized by
calculate_baseline_risk. -/
def generate_recommendations (student : Student) (cluster_info : ClusterInfo) :
    List Recommendation :=
  let recommendations :=
    attendanceRecs (student.attendance_percentage.getD 0)
    ++ cgpaRecs (student.cgpa.getD 0)
    ++ backlogRecs (student.backlogs.getD 0)
    ++ feesRecs (student.fees_pending.getD false) (student.fees_amount_due.getD 0)
    ++ engagementRecs (student.bot_engagement_score.getD 0)
    ++ quizRecs (student.quiz_score_avg.getD 0)
    ++ counsellingRecs (student.counselling_sessions.getD 0) student.final_risk
    ++ [.clusterProfile cluster_info.name, .clusterFocus cluster_info.intervention]
  priorityTag student.final_risk ++ recommendations

/-! Helper lemmas about calculate_baseline_risk projections. -/

theorem calc_student_eq (st : Student) :
    (calculate_baseline_risk st).2.2 = normalizeStudent st := by
  unfold calculate_baseline_risk
  dsimp only
  split
  · rfl
  · split
    · rfl
    · split <;> rfl

theorem calc_risk_eq (st : Student) :
    (calculate_baseline_risk st).1 =
      (if riskScore st ≥ 8 then RiskLevel.red
       else if riskScore st ≥ 4 then RiskLevel.yellow
       else RiskLevel.green) := by
  unfold calculate_baseline_risk
  dsimp only
  split
  · rfl
  · split
    · rfl
    · split <;> rfl

theorem calc_factors_eq (st : Student) :
    (calculate_baseline_risk st).2.1 =
      (if riskScore st < 4 ∧ bandFactors st = [] then [Factor.noSignificantRisk]
       else bandFactors st) := by
  unfold calculate_baseline_risk
  dsimp only
  split
  · rename_i h8
    rw [if_neg]
    intro hc
    omega
  · split
    · rename_i h8 h4
      rw [if_neg]
      intro hc
      omega
    · rename_i h8 h4
      split
      · rename_i hemp
        rw [if_pos]
        exact ⟨by omega, by simpa [List.isEmpty_iff] using hemp⟩
      · rename_i hemp
        rw [if_neg]
        intro hc
        exact hemp (by simpa [List.isEmpty_iff] using hc.2)

/-! Concrete records used to instantiate the theorems. -/

/-- A neutral, fully populated student record. -/
def sampleStudent : Student :=
  { id := 1
    attendance_percentage := some 90
    cgpa := some 8
    backlogs := some 0
    fees_pending := some false
    fees_amount_due := some 0
    quiz_score_avg := some 80
    bot_engagement_score := some 80
    counselling_sessions := some 1
    semester := some 4
    cluster_id := none
    baseline_risk := RiskLevel.green
    final_risk := RiskLevel.green
    ml_risk_score := 0
    dropout_probability := 0
    stage := 1 }

/-- A severely at-risk student snapshot: the end-to-end scenario of the
specification (attendance 45, cgpa 3.5, backlogs 6, 150000 pending fees,
quiz 20, engagement 10). -/
def stBad : Student :=
  { id := 7
    attendance_percentage := some 45
    cgpa := some (mkRat 7 2)
    backlogs := some 6
    fees_pending := some true
    fees_amount_due := some 150000
    quiz_score_avg := some 20
    bot_engagement_score := some 10
    counselling_sessions := some 0
    semester := some 3
    cluster_id := none
    baseline_risk := RiskLevel.green
    final_risk := RiskLevel.green
    ml_risk_score := 0
    dropout_probability := 0
    stage := 1 }

/-! C1: the direct-analysis fusion policy of _set_risk_fields. -/

/-- C1: for every baseline risk and ml probability in the unit interval,
_set_risk_fields yields RED and stage 3 when probability is at least 0.7
or the baseline is RED, otherwise YELLOW and stage 2 when probability is
at least 0.4 or the baseline is YELLOW, otherwise GREEN and stage 1; in
particular baseline RED with probability 0 yields RED with stage 3. -/
theorem C1_fusion_policy (st : Student) (b : RiskLevel) (p : ℚ)
    (hp0 : 0 ≤ p) (hp1 : p ≤ 1) :
    ((p ≥ mkRat 7 10 ∨ b = RiskLevel.red) →
      (set_risk_fields st b p none).final_risk = RiskLevel.red ∧
      (set_risk_fields st b p none).stage = 3) ∧
    (¬(p ≥ mkRat 7 10 ∨ b = RiskLevel.red) →
      (p ≥ mkRat 4 10 ∨ b = RiskLevel.yellow) →
      (set_risk_fields st b p none).final_risk = RiskLevel.yellow ∧
      (set_risk_fields st b p none).stage = 2) ∧
    (¬(p ≥ mkRat 7 10 ∨ b = RiskLevel.red) →
      ¬(p ≥ mkRat 4 10 ∨ b = RiskLevel.yellow) →
      (set_risk_fields st b p none).final_risk = RiskLevel.green ∧
      (set_risk_fields st b p none).stage = 1) ∧
    ((set_risk_fields st RiskLevel.red 0 none).final_risk = RiskLevel.red ∧
      (set_risk_fields st RiskLevel.red 0 none).stage = 3) := by
  refine ⟨?_, ?_, ?_, ?_⟩
  · intro h
    unfold set_risk_fields
    dsimp only
    rw [if_pos h]
    exact ⟨rfl, rfl⟩
  · intro h7 h4
    unfold set_risk_fields
    dsimp only
    rw [if_neg h7, if_pos h4]
    exact ⟨rfl, rfl⟩
  · intro h7 h4
    unfold set_risk_fields
    dsimp only
    rw [if_neg h7, if_neg h4]
    exact ⟨rfl, rfl⟩
  · unfold set_risk_fields
    dsimp only
    rw [if_pos (Or.inr rfl)]
    exact ⟨rfl, rfl⟩

/-- Witness for C1: probability 0.75 with baseline GREEN is fused to RED
with stage 3. -/
theorem C1_fusion_policy_witness :
    (set_risk_fields sampleStudent RiskLevel.green (mkRat 75 100) none).final_risk
      = RiskLevel.red ∧
    (set_risk_fields sampleStudent RiskLevel.green (mkRat 75 100) none).stage
      = 3 :=
  (C1_fusion_policy sampleStudent RiskLevel.green (mkRat 75 100)
    (by decide) (by decide)).1 (Or.inl (by decide))

/-! C6: the continuous-engagement-update thresholds of bot.py and their
divergence from direct-analysis fusion. -/

/-- C6: the activity-logging path maps the dropout probability alone with
thresholds 0.3 and 0.6 (GREEN and stage 1 below 0.3, YELLOW and stage 2
below 0.6, RED and stage 3 otherwise), and the mapping disagrees with the
0.4 and 0.7 fusion of _set_risk_fields at probability 0.35 with baseline
GREEN and at probability 0 with baseline RED. -/
theorem C6_bot_thresholds (st : Student) (p : ℚ) :
    (p < mkRat 3 10 →
      (compute_final_risk_and_stage st p).final_risk = RiskLevel.green ∧
      (compute_final_risk_and_stage st p).stage = 1) ∧
    (¬ p < mkRat 3 10 → p < mkRat 6 10 →
      (compute_final_risk_and_stage st p).final_risk = RiskLevel.yellow ∧
      (compute_final_risk_and_stage st p).stage = 2) ∧
    (¬ p < mkRat 6 10 →
      (compute_final_risk_and_stage st p).final_risk = RiskLevel.red ∧
      (compute_final_risk_and_stage st p).stage = 3) ∧
    (compute_final_risk_and_stage st (mkRat 35 100)).final_risk ≠
      (set_risk_fields st RiskLevel.green (mkRat 35 100) none).final_risk ∧
    (compute_final_risk_and_stage st 0).final_risk ≠
      (set_risk_fields st RiskLevel.red 0 none).final_risk := by
  refine ⟨?_, ?_, ?_, ?_, ?_⟩
  · intro h
    unfold compute_final_risk_and_stage
    dsimp only
    rw [if_pos h]
    exact ⟨rfl, rfl⟩
  · intro h3 h6
    unfold compute_final_risk_and_stage
    dsimp only
    rw [if_neg h3, if_pos h6]
    exact ⟨rfl, rfl⟩
  · intro h6
    unfold compute_final_risk_and_stage
    dsimp only
    rw [if_neg h6]
    · rw [if_neg]
      · exact ⟨rfl, rfl⟩
      · intro h3
        exact h6 (lt_trans h3 (by decide))
  · unfold compute_final_risk_and_stage set_risk_fields
    dsimp only
    rw [if_neg (by decide), if_pos (by decide),
      if_neg (by decide), if_neg (by decide)]
    exact fun h => RiskLevel.noConfusion h
  · unfold compute_final_risk_and_stage set_risk_fields
    dsimp only
    rw [if_pos (by decide), if_pos (Or.inr rfl)]
    exact fun h => RiskLevel.noConfusion h

/-- Witness for C6: probability 0.2 maps to GREEN with stage 1 on the
activity-logging path. -/
theorem C6_bot_thresholds_witness :
    (compute_final_risk_and_stage sampleStudent (mkRat 2 10)).final_risk
      = RiskLevel.green ∧
    (compute_final_risk_and_stage sampleStudent (mkRat 2 10)).stage = 1 :=
  (C6_bot_thresholds sampleStudent (mkRat 2 10)).1 (by decide)

/-! C5: stage versus final risk after each risk-writing operation. -/

/-- C5 (amended): after _set_risk_fields and after the activity-logging
update, stage is derived one-to-one from final risk (3 iff RED, 2 iff
YELLOW, 1 iff GREEN); the student-creation path, however, sets final_risk
from the baseline rules while leaving stage at its column default, so it
preserves the correspondence only when the baseline is GREEN. -/
theorem C5_stage_one_to_one (st : Student) (b : RiskLevel) (p : ℚ)
    (cid : Option ℤ) (q : ℚ) :
    (((set_risk_fields st b p cid).stage = 3 ↔
        (set_risk_fields st b p cid).final_risk = RiskLevel.red) ∧
      ((set_risk_fields st b p cid).stage = 2 ↔
        (set_risk_fields st b p cid).final_risk = RiskLevel.yellow) ∧
      ((set_risk_fields st b p cid).stage = 1 ↔
        (set_risk_fields st b p cid).final_risk = RiskLevel.green)) ∧
    (((compute_final_risk_and_stage st q).stage = 3 ↔
        (compute_final_risk_and_stage st q).final_risk = RiskLevel.red) ∧
      ((compute_final_risk_and_stage st q).stage = 2 ↔
        (compute_final_risk_and_stage st q).final_risk = RiskLevel.yellow) ∧
      ((compute_final_risk_and_stage st q).stage = 1 ↔
        (compute_final_risk_and_stage st q).final_risk = RiskLevel.green)) ∧
    ((create_student st).stage = st.stage ∧
      (create_student st).final_risk = (calculate_baseline_risk st).1) := by
  refine ⟨?_, ?_, ?_, ?_⟩
  · unfold set_risk_fields
    dsimp only
    split
    · exact ⟨by simp, by simp, by simp⟩
    · split
      · exact ⟨by simp, by simp, by simp⟩
      · exact ⟨by simp, by simp, by simp⟩
  · unfold compute_final_risk_and_stage
    dsimp only
    split
    · exact ⟨by simp, by simp, by simp⟩
    · split
      · exact ⟨by simp, by simp, by simp⟩
      · exact ⟨by simp, by simp, by simp⟩
  · simp [create_student, calc_student_eq, normalizeStudent]
  · simp [create_student]

/-- Counterexample for C5 as stated: on the creation path, the severely
at-risk snapshot gets final risk RED while stage remains 1, so stage 3 is
not equivalent to final risk RED after creation. -/
theorem C5_stage_one_to_one_counterexample :
    (create_student stBad).final_risk = RiskLevel.red ∧
    (create_student stBad).stage = 1 ∧
    (create_student stBad).stage ≠ 3 := by decide

/-! C9 and C3: the None-default mutation of the rule classifier and the
absence of any such normalization in the statistical model. -/

/-- A fully populated student except for a missing cgpa. -/
def stMissing : Student :=
  { sampleStudent with cgpa := none }

/-- C9 (amended): calculate_baseline_risk is not free of effects on its
argument: its only effect is writing neutral defaults into the missing
scored fields (0 for attendance, cgpa, backlogs and fees amount, False
for fees_pending, 50 for engagement and quiz).  Fields that were present
keep their value and every other field is untouched. -/
theorem C9_rules_effect (st : Student) :
    (calculate_baseline_risk st).2.2 = normalizeStudent st ∧
    (calculate_baseline_risk st).2.2.attendance_percentage
      = some (st.attendance_percentage.getD 0) ∧
    (calculate_baseline_risk st).2.2.cgpa = some (st.cgpa.getD 0) ∧
    (calculate_baseline_risk st).2.2.backlogs = some (st.backlogs.getD 0) ∧
    (calculate_baseline_risk st).2.2.fees_pending
      = some (st.fees_pending.getD false) ∧
    (calculate_baseline_risk st).2.2.fees_amount_due
      = some (st.fees_amount_due.getD 0) ∧
    (calculate_baseline_risk st).2.2.bot_engagement_score
      = some (st.bot_engagement_score.getD 50) ∧
    (calculate_baseline_risk st).2.2.quiz_score_avg
      = some (st.quiz_score_avg.getD 50) ∧
    (calculate_baseline_risk st).2.2.id = st.id ∧
    (calculate_baseline_risk st).2.2.counselling_sessions
      = st.counselling_sessions ∧
    (calculate_baseline_risk st).2.2.semester = st.semester ∧
    (calculate_baseline_risk st).2.2.cluster_id = st.cluster_id ∧
    (calculate_baseline_risk st).2.2.baseline_risk = st.baseline_risk ∧
    (calculate_baseline_risk st).2.2.final_risk = st.final_risk ∧
    (calculate_baseline_risk st).2.2.stage = st.stage := by
  simp [calc_student_eq, normalizeStudent]

/-- Counterexample for C9 as stated: a snapshot whose cgpa is missing no
longer has a missing cgpa after calculate_baseline_risk returns; the
call wrote the default 0 into the field. -/
theorem C9_rules_effect_counterexample :
    stMissing.cgpa = none ∧
    (calculate_baseline_risk stMissing).2.2.cgpa = some 0 ∧
    (calculate_baseline_risk stMissing).2.2.cgpa ≠ none := by decide

set_option maxHeartbeats 3200000 in
/-- C3 (amended): the rule classifier replaces every missing scored field
by its neutral default before scoring (0 for academic and financial
fields, 50 for quiz and engagement), and scoring reads only the
normalized snapshot, so it is total.  The statistical model performs no
such replacement: its feature extraction succeeds exactly when the eight
numeric feature fields are present (a missing fees_pending alone is
coerced to 0 by Python truthiness), so predict is not total over
snapshots with missing values. -/
theorem C3_scoring_defaults (st : Student) :
    (normalizeStudent st).attendance_percentage
      = some (st.attendance_percentage.getD 0) ∧
    (normalizeStudent st).cgpa = some (st.cgpa.getD 0) ∧
    (normalizeStudent st).backlogs = some (st.backlogs.getD 0) ∧
    (normalizeStudent st).fees_pending = some (st.fees_pending.getD false) ∧
    (normalizeStudent st).fees_amount_due = some (st.fees_amount_due.getD 0) ∧
    (normalizeStudent st).bot_engagement_score
      = some (st.bot_engagement_score.getD 50) ∧
    (normalizeStudent st).quiz_score_avg
      = some (st.quiz_score_avg.getD 50) ∧
    bandOutputs st = bandOutputs (normalizeStudent st) ∧
    ((extract_features st).isSome ↔
      (st.attendance_percentage.isSome ∧ st.cgpa.isSome ∧
        st.backlogs.isSome ∧ st.fees_amount_due.isSome ∧
        st.quiz_score_avg.isSome ∧ st.bot_engagement_score.isSome ∧
        st.counselling_sessions.isSome ∧ st.semester.isSome)) := by
  obtain ⟨i, att, cg, bl, fp, fa, qz, en, cs, sem, cl, br, fr, ml, dp, stg⟩ := st
  refine ⟨rfl, rfl, rfl, rfl, rfl, rfl, rfl, ?_, ?_⟩
  · simp [bandOutputs, normalizeStudent]
  · cases att <;> cases cg <;> cases bl <;> cases fa <;> cases qz <;>
      cases en <;> cases cs <;> cases sem <;> simp [extract_features]

/-- Counterexample for C3 as stated: the statistical model's feature
extraction fails outright on a snapshot with a missing cgpa instead of
substituting the neutral default; restoring the field makes it
succeed. -/
theorem C3_scoring_defaults_counterexample :
    stMissing.cgpa = none ∧
    extract_features stMissing = none ∧
    (extract_features { stMissing with cgpa := some 0 }).isSome = true :=
  ⟨rfl, rfl, rfl⟩

/-! C2 and C7: shape of the rule classifier. -/

theorem attendanceBand_factor (a : ℚ) :
    (attendanceBand a).2.isSome ↔ 0 < (attendanceBand a).1 := by
  unfold attendanceBand
  repeat' split
  all_goals simp

theorem cgpaBand_factor (g : ℚ) :
    (cgpaBand g).2.isSome ↔ 0 < (cgpaBand g).1 := by
  unfold cgpaBand
  repeat' split
  all_goals simp

theorem backlogsBand_factor (b : ℤ) :
    (backlogsBand b).2.isSome ↔ 0 < (backlogsBand b).1 := by
  unfold backlogsBand
  repeat' split
  all_goals simp

theorem feesBand_factor (p : Bool) (f : ℚ) :
    (feesBand p f).2.isSome ↔ 0 < (feesBand p f).1 := by
  unfold feesBand
  repeat' split
  all_goals simp

theorem engagementBand_factor (e : ℚ) :
    (engagementBand e).2.isSome ↔ 0 < (engagementBand e).1 := by
  unfold engagementBand
  repeat' split
  all_goals simp

theorem quizBand_factor (q : ℚ) :
    (quizBand q).2.isSome ↔ 0 < (quizBand q).1 := by
  unfold quizBand
  repeat' split
  all_goals simp

theorem bandOutputs_factor (st : Student) :
    ∀ b ∈ bandOutputs st, b.2.isSome ↔ 0 < b.1 := by
  intro b hb
  simp only [bandOutputs, List.mem_cons, List.not_mem_nil, or_false] at hb
  rcases hb with rfl | rfl | rfl | rfl | rfl | rfl
  · exact attendanceBand_factor _
  · exact cgpaBand_factor _
  · exact backlogsBand_factor _
  · exact feesBand_factor _ _
  · exact engagementBand_factor _
  · exact quizBand_factor _

theorem length_filterMap_countP (l : List (Nat × Option Factor))
    (h : ∀ b ∈ l, b.2.isSome ↔ 0 < b.1) :
    (l.filterMap Prod.snd).length = l.countP (fun b => decide (0 < b.1)) := by
  induction l with
  | nil => rfl
  | cons b rest ih =>
    have hb := h b (List.mem_cons_self b rest)
    have hr : ∀ x ∈ rest, x.2.isSome ↔ 0 < x.1 :=
      fun x hx => h x (List.mem_cons_of_mem _ hx)
    cases hob : b.2 with
    | none =>
      have hpos : ¬ 0 < b.1 := by
        simp [hob] at hb
        omega
      simp [List.filterMap_cons, hob, List.countP_cons, hpos, ih hr]
    | some f =>
      have hpos : 0 < b.1 := hb.mp (by simp [hob])
      simp [List.filterMap_cons, hob, List.countP_cons, hpos, ih hr]

/-- C2: the rule classifier accumulates an integer score as the sum of
the per-signal threshold bands, each matching band contributing exactly
one factor (the factor count equals the number of bands with positive
points); the result is RED exactly when the score is at least 8, YELLOW
exactly when it is in [4, 8), GREEN otherwise, and the returned factor
list is the band factors except that a GREEN result with no appended
factor gets the single positive confirmation factor. -/
theorem C2_rule_classifier (st : Student) :
    ((calculate_baseline_risk st).1 = RiskLevel.red ↔ riskScore st ≥ 8) ∧
    ((calculate_baseline_risk st).1 = RiskLevel.yellow ↔
      (riskScore st ≥ 4 ∧ riskScore st < 8)) ∧
    ((calculate_baseline_risk st).1 = RiskLevel.green ↔ riskScore st < 4) ∧
    riskScore st = ((bandOutputs st).map Prod.fst).sum ∧
    (bandFactors st).length
      = (bandOutputs st).countP (fun b => decide (0 < b.1)) ∧
    (calculate_baseline_risk st).2.1
      = (if riskScore st < 4 ∧ bandFactors st = []
         then [Factor.noSignificantRisk] else bandFactors st) := by
  refine ⟨?_, ?_, ?_, rfl,
    length_filterMap_countP _ (bandOutputs_factor st), calc_factors_eq st⟩
  · rw [calc_risk_eq]
    split
    · rename_i h8
      simp [h8]
    · split
      · rename_i h8 h4
        simp [h8]
      · rename_i h8 h4
        simp [h8]
  · rw [calc_risk_eq]
    split
    · rename_i h8
      simp
      omega
    · split
      · rename_i h8 h4
        simp
        omega
      · rename_i h8 h4
        simp
        omega
  · rw [calc_risk_eq]
    split
    · rename_i h8
      simp
      omega
    · split
      · rename_i h8 h4
        simp
        omega
      · rename_i h8 h4
        simp
        omega

/-- C7 (amended): a snapshot with attendance below 50, cgpa below 4.0,
at least 5 backlogs and more than 100000 pending fees is classified RED
with score at least 8 and at least 4 factors; the factor count is
exactly 4 when additionally the engagement score is at least 40 and the
quiz average at least 30 (otherwise those bands append further
factors). -/
theorem C7_extreme_snapshot (st : Student) (a g : ℚ) (b : ℤ) (f : ℚ)
    (ha : st.attendance_percentage = some a) (ha2 : a < 50)
    (hg : st.cgpa = some g) (hg2 : g < 4)
    (hb : st.backlogs = some b) (hb2 : b ≥ 5)
    (hfp : st.fees_pending = some true)
    (hfa : st.fees_amount_due = some f) (hfa2 : f > 100000) :
    (calculate_baseline_risk st).1 = RiskLevel.red ∧
    riskScore st ≥ 8 ∧
    (calculate_baseline_risk st).2.1.length ≥ 4 ∧
    (∀ e q, st.bot_engagement_score = some e → e ≥ 40 →
      st.quiz_score_avg = some q → q ≥ 30 →
      (calculate_baseline_risk st).2.1.length = 4) := by
  have e1 : attendanceBand a = (4, some (Factor.criticalAttendance a)) := by
    unfold attendanceBand
    rw [if_pos ha2]
  have e2 : cgpaBand g = (4, some (Factor.criticalCgpa g)) := by
    unfold cgpaBand
    rw [if_pos hg2]
  have e3 : backlogsBand b = (4, some (Factor.highBacklogs b)) := by
    unfold backlogsBand
    rw [if_pos hb2]
  have e4 : feesBand true f = (4, some (Factor.majorFeePending f)) := by
    unfold feesBand
    rw [if_pos rfl, if_pos hfa2]
  have hbo : bandOutputs st =
      [(4, some (Factor.criticalAttendance a)),
       (4, some (Factor.criticalCgpa g)),
       (4, some (Factor.highBacklogs b)),
       (4, some (Factor.majorFeePending f)),
       engagementBand (st.bot_engagement_score.getD 50),
       quizBand (st.quiz_score_avg.getD 50)] := by
    simp [bandOutputs, normalizeStudent, ha, hg, hb, hfp, hfa, e1, e2, e3, e4]
  have hscore : riskScore st ≥ 8 := by
    rw [riskScore, hbo]
    simp only [List.map_cons, List.map_nil, List.sum_cons, List.sum_nil]
    omega
  have hred : (calculate_baseline_risk st).1 = RiskLevel.red := by
    rw [calc_risk_eq, if_pos hscore]
  have hfac : (calculate_baseline_risk st).2.1 = bandFactors st := by
    rw [calc_factors_eq, if_neg]
    intro hc
    omega
  refine ⟨hred, hscore, ?_, ?_⟩
  · rw [hfac, bandFactors, hbo]
    cases h5 : (engagementBand (st.bot_engagement_score.getD 50)).2 <;>
      cases h6 : (quizBand (st.quiz_score_avg.getD 50)).2 <;>
        simp [List.filterMap_cons, h5, h6]
  · intro e q he he2 hq hq2
    have e5 : engagementBand e = (0, none) := by
      unfold engagementBand
      rw [if_neg (by linarith), if_neg (by linarith)]
    have e6 : quizBand q = (0, none) := by
      unfold quizBand
      rw [if_neg (by linarith)]
    rw [hfac, bandFactors, hbo]
    simp [he, hq, e5, e6, List.filterMap_cons]

/-- Counterexample for C7 as stated: the specification's own end-to-end
snapshot (attendance 45, cgpa 3.5, backlogs 6, 150000 pending fees,
engagement 10, quiz 20) satisfies every hypothesis of the claim yet
produces 6 factors, not exactly 4, because the engagement and quiz bands
also append factors. -/
theorem C7_extreme_snapshot_counterexample :
    stBad.attendance_percentage = some 45 ∧ (45 : ℚ) < 50 ∧
    stBad.cgpa = some (mkRat 7 2) ∧ mkRat 7 2 < 4 ∧
    stBad.backlogs = some 6 ∧ (6 : ℤ) ≥ 5 ∧
    stBad.fees_pending = some true ∧
    stBad.fees_amount_due = some 150000 ∧ (150000 : ℚ) > 100000 ∧
    (calculate_baseline_risk stBad).2.1.length = 6 ∧
    (calculate_baseline_risk stBad).2.1.length ≠ 4 := by decide

/-- The extreme snapshot with healthy engagement and quiz signals. -/
def stW7 : Student :=
  { stBad with bot_engagement_score := some 50, quiz_score_avg := some 50 }

/-- Witness for C7: the amended theorem applied to a concrete extreme
snapshot whose engagement and quiz scores are 50. -/
theorem C7_extreme_snapshot_witness :
    (calculate_baseline_risk stW7).1 = RiskLevel.red ∧
    riskScore stW7 ≥ 8 ∧
    (calculate_baseline_risk stW7).2.1.length ≥ 4 ∧
    (calculate_baseline_risk stW7).2.1.length = 4 := by
  have h := C7_extreme_snapshot stW7 45 (mkRat 7 2) 6 150000
    rfl (by decide) rfl (by decide) rfl (by decide) rfl rfl (by decide)
  exact ⟨h.1, h.2.1, h.2.2.1, h.2.2.2 50 50 rfl (by decide) rfl (by decide)⟩

/-! C8: ordering of the recommendation list. -/

/-- C8: the priority tag is the very first entry for a RED-risk student;
for a student with attendance 30 the urgent-attendance block starts
right after the priority tag (of length 0 or 1); the blocks appear in
the fixed source order (priority, attendance, cgpa, backlogs, fees,
engagement, quiz, counselling) and the cluster-profile summary comes
last, ending with the intervention-focus line. -/
theorem C8_recommendation_order (st : Student) (ci : ClusterInfo) :
    (st.final_risk = RiskLevel.red →
      (generate_recommendations st ci).head?
        = some Recommendation.priorityHigh) ∧
    (st.attendance_percentage = some 30 →
      ((generate_recommendations st ci).drop
          (priorityTag st.final_risk).length).head?
        = some Recommendation.urgentMeeting) ∧
    generate_recommendations st ci =
      priorityTag st.final_risk
        ++ attendanceRecs (st.attendance_percentage.getD 0)
        ++ cgpaRecs (st.cgpa.getD 0)
        ++ backlogRecs (st.backlogs.getD 0)
        ++ feesRecs (st.fees_pending.getD false) (st.fees_amount_due.getD 0)
        ++ engagementRecs (st.bot_engagement_score.getD 0)
        ++ quizRecs (st.quiz_score_avg.getD 0)
        ++ counsellingRecs (st.counselling_sessions.getD 0) st.final_risk
        ++ [Recommendation.clusterProfile ci.name,
            Recommendation.clusterFocus ci.intervention] ∧
    (generate_recommendations st ci).getLast?
      = some (Recommendation.clusterFocus ci.intervention) := by
  refine ⟨?_, ?_, ?_, ?_⟩
  · intro h
    unfold generate_recommendations
    dsimp only
    rw [h]
    rfl
  · intro h
    unfold generate_recommendations
    dsimp only
    rw [List.drop_left, h]
    norm_num [attendanceRecs]
  · unfold generate_recommendations
    dsimp only
    simp [List.append_assoc]
  · have h2 : ∀ l : List Recommendation,
        (l ++ [Recommendation.clusterProfile ci.name,
               Recommendation.clusterFocus ci.intervention]).getLast?
          = some (Recommendation.clusterFocus ci.intervention) := by
      intro l
      rw [List.getLast?_append_of_ne_nil]
      · rfl
      · simp
    unfold generate_recommendations
    dsimp only
    rw [List.getLast?_append_of_ne_nil, h2]
    simp

/-- A cluster profile for instantiating the recommendation theorems. -/
def ciSample : ClusterInfo :=
  { name := "Disengaged Students"
    description := "Low attendance and low engagement"
    typical_issues := ["Lack of interest in course"]
    intervention := "One-on-one counselling" }

/-- A red-risk student with attendance 30. -/
def stRec : Student :=
  { sampleStudent with
    attendance_percentage := some 30
    final_risk := RiskLevel.red }

/-- Witness for C8: for a RED student with attendance 30, the priority
tag is first, the urgent-attendance entry follows it, and the cluster
focus line is last. -/
theorem C8_recommendation_order_witness :
    (generate_recommendations stRec ciSample).head?
      = some Recommendation.priorityHigh ∧
    ((generate_recommendations stRec ciSample).drop
        (priorityTag stRec.final_risk).length).head?
      = some Recommendation.urgentMeeting ∧
    (generate_recommendations stRec ciSample).getLast?
      = some (Recommendation.clusterFocus ciSample.intervention) :=
  ⟨(C8_recommendation_order stRec ciSample).1 rfl,
   (C8_recommendation_order stRec ciSample).2.1 rfl,
   (C8_recommendation_order stRec ciSample).2.2.2⟩

/-! C4 and C10: the counselor assignment. -/

theorem keys_addStudent (m : List (Nat × List Student)) (k : Nat) (s : Student) :
    (addStudent m k s).map Prod.fst = m.map Prod.fst := by
  induction m with
  | nil => rfl
  | cons p rest ih =>
    have hcons : addStudent (p :: rest) k s
        = (if p.1 = k then (p.1, p.2 ++ [s]) else p) :: addStudent rest k s := rfl
    rw [hcons, List.map_cons, List.map_cons, ih]
    congr 1
    split <;> rfl

theorem assignedList_addStudent (m : List (Nat × List Student)) (k kq : Nat)
    (s : Student) :
    assignedList (addStudent m k s) kq =
      if kq = k ∧ k ∈ m.map Prod.fst then assignedList m kq ++ [s]
      else assignedList m kq := by
  induction m with
  | nil => simp [addStudent, assignedList]
  | cons p rest ih =>
    have hcons : addStudent (p :: rest) k s
        = (if p.1 = k then (p.1, p.2 ++ [s]) else p) :: addStudent rest k s := rfl
    rw [hcons]
    by_cases hpk : p.1 = k
    · rw [if_pos hpk]
      by_cases hpq : p.1 = kq
      · have hkq : kq = k := by rw [← hpq, hpk]
        have hmem : k ∈ List.map Prod.fst (p :: rest) := by
          rw [List.map_cons]
          exact List.mem_cons.mpr (Or.inl hpk.symm)
        rw [if_pos ⟨hkq, hmem⟩]
        simp [assignedList, hpq]
      · have hkq : ¬ kq = k := by
          intro h
          exact hpq (by rw [hpk, h])
        simp [assignedList, hpq, hkq, ih]
    · rw [if_neg hpk]
      by_cases hpq : p.1 = kq
      · have hkq : ¬ kq = k := by
          intro h
          exact hpk (by rw [hpq, h])
        simp [assignedList, hpq, hkq]
      · have hne : ¬ k = p.1 := fun h => hpk h.symm
        simp only [assignedList, if_neg hpq, ih, List.map_cons]
        by_cases hkk : kq = k
        · by_cases hkm : k ∈ List.map Prod.fst rest
          · rw [if_pos ⟨hkk, hkm⟩, if_pos ⟨hkk, List.mem_cons.mpr (Or.inr hkm)⟩]
          · rw [if_neg (fun hcon => hkm hcon.2), if_neg ?hr]
            case hr =>
              intro hcon
              rcases List.mem_cons.mp hcon.2 with h1 | h2
              · exact hne h1
              · exact hkm h2
        · rw [if_neg (fun hcon => hkk hcon.1), if_neg (fun hcon => hkk hcon.1)]

theorem assignedList_init (counselors : List Counselor) (k : Nat) :
    assignedList (counselors.map (fun c => (c.id, ([] : List Student)))) k
      = [] := by
  induction counselors with
  | nil => rfl
  | cons c rest ih =>
    simp only [List.map_cons, assignedList]
    split
    · rfl
    · exact ih

theorem routed_mem {counselors : List Counselor} {s : Student}
    {c : Counselor} (h : routedCounselor counselors s = some c) :
    c ∈ counselors := by
  unfold routedCounselor counselorPool at h
  dsimp only at h
  split at h
  · exact List.get?_mem h
  · exact List.mem_of_mem_filter (List.get?_mem h)

theorem routed_exists {counselors : List Counselor} (hne : counselors ≠ [])
    (s : Student) : ∃ c, routedCounselor counselors s = some c := by
  unfold routedCounselor
  dsimp only
  have hplen : 0 < (counselorPool counselors s).length := by
    unfold counselorPool
    dsimp only
    split
    · exact List.length_pos.mpr hne
    · rename_i hemp
      refine List.length_pos.mpr ?_
      simpa [List.isEmpty_iff] using hemp
  have hidx : s.id % (counselorPool counselors s).length
      < (counselorPool counselors s).length := Nat.mod_lt _ hplen
  exact ⟨_, List.get?_eq_get hidx⟩

theorem assignedList_foldl (counselors : List Counselor)
    (students : List Student) (m : List (Nat × List Student)) (k : Nat)
    (hkeys : ∀ c : Counselor, c ∈ counselors → c.id ∈ m.map Prod.fst) :
    assignedList (students.foldl (assignOne counselors) m) k =
      assignedList m k
        ++ students.filter (fun s => decide (routedId counselors s = some k)) := by
  induction students generalizing m with
  | nil => simp
  | cons s rest ih =>
    rw [List.foldl_cons]
    have hkeys2 : ∀ c : Counselor, c ∈ counselors →
        c.id ∈ (assignOne counselors m s).map Prod.fst := by
      intro c hc
      unfold assignOne
      cases hr : routedCounselor counselors s with
      | none => exact hkeys c hc
      | some d =>
        rw [keys_addStudent]
        exact hkeys c hc
    rw [ih _ hkeys2]
    cases hr : routedCounselor counselors s with
    | none =>
      rw [List.filter_cons_of_neg]
      · simp [assignOne, hr]
      · simp [routedId, hr]
    | some c =>
      have hmem : c.id ∈ m.map Prod.fst := hkeys c (routed_mem hr)
      simp only [assignOne, hr]
      rw [assignedList_addStudent]
      by_cases hck : k = c.id
      · rw [if_pos ⟨hck, hmem⟩, List.filter_cons_of_pos]
        · simp
        · simp [routedId, hr, hck]
      · rw [if_neg (fun hcon => hck hcon.1), List.filter_cons_of_neg]
        · simp [routedId, hr]
          exact fun h => hck h.symm

theorem build_assignedList (counselors : List Counselor)
    (students : List Student) (hne : counselors ≠ [])
    (c : Counselor) (hc : c ∈ counselors) :
    assignedList (build_specialized_assignment counselors students) c.id
      = students.filter (fun s => decide (routedId counselors s = some c.id)) := by
  unfold build_specialized_assignment
  dsimp only
  rw [if_neg (by simpa [List.isEmpty_iff] using hne)]
  rw [assignedList_foldl]
  · rw [assignedList_init, List.nil_append]
  · intro d hd
    simp only [List.map_map]
    refine List.mem_map.mpr ⟨d, hd, rfl⟩

/-- C10: with a non-empty roster of distinct counselor ids, the virtual
assignment is a partition of the student list: every student lands in
the list of exactly one counselor, every assigned student comes from the
student list, and an empty roster yields a mapping with no entries. -/
theorem C10_assignment_partition (counselors : List Counselor)
    (students : List Student) (hne : counselors ≠ [])
    (hid : (counselors.map Counselor.id).Nodup) :
    (∀ s ∈ students, ∃ c ∈ counselors,
        s ∈ assignedList (build_specialized_assignment counselors students) c.id ∧
        ∀ d ∈ counselors,
          s ∈ assignedList (build_specialized_assignment counselors students) d.id
            → d = c) ∧
    (∀ c ∈ counselors,
        ∀ s ∈ assignedList (build_specialized_assignment counselors students) c.id,
          s ∈ students) ∧
    build_specialized_assignment [] students = [] := by
  refine ⟨?_, ?_, rfl⟩
  · intro s hs
    obtain ⟨c, hc⟩ := routed_exists hne s
    have hcmem := routed_mem hc
    refine ⟨c, hcmem, ?_, ?_⟩
    · rw [build_assignedList counselors students hne c hcmem, List.mem_filter]
      exact ⟨hs, by simp [routedId, hc]⟩
    · intro d hd hsd
      rw [build_assignedList counselors students hne d hd, List.mem_filter] at hsd
      have h2 : routedId counselors s = some d.id := by simpa using hsd.2
      have hcd : c.id = d.id := by
        simp only [routedId, hc, Option.map_some] at h2
        exact Option.some.inj h2
      exact List.inj_on_of_nodup_map hid hd hcmem hcd.symm
  · intro c hc s hs
    rw [build_assignedList counselors students hne c hc, List.mem_filter] at hs
    exact hs.1

/-- Counselor specialized in academic issues. -/
def cAcadW : Counselor := { id := 1, specialization := some "academic" }

/-- Counselor with a general specialization. -/
def cGenW : Counselor := { id := 2, specialization := some "general" }

/-- A two-counselor roster. -/
def CW : List Counselor := [cAcadW, cGenW]

/-- Witness for C10: the partition property instantiated on a concrete
roster of two counselors and two students. -/
theorem C10_assignment_partition_witness :
    (∀ s ∈ [sampleStudent, stBad], ∃ c ∈ CW,
        s ∈ assignedList (build_specialized_assignment CW [sampleStudent, stBad]) c.id ∧
        ∀ d ∈ CW,
          s ∈ assignedList (build_specialized_assignment CW [sampleStudent, stBad]) d.id
            → d = c) ∧
    (∀ c ∈ CW,
        ∀ s ∈ assignedList (build_specialized_assignment CW [sampleStudent, stBad]) c.id,
          s ∈ [sampleStudent, stBad]) ∧
    build_specialized_assignment [] [sampleStudent, stBad] = [] :=
  C10_assignment_partition CW [sampleStudent, stBad] (by decide) (by decide)

/-- C4 (amended): with a non-empty roster of distinct counselor ids, a
student is in a counselor id's assigned list exactly when it is in the
student list and routed to that counselor; routing picks index
student.id mod pool size in the specialization pool for the student
area, falling back to the whole roster when that pool is empty; the
area comes from the cluster-id rules (1 academic, 2 financial,
3 attendance) with strict priority over the attribute heuristics, and
the heuristics read each attribute through Python-or defaults, so a
missing or zero cgpa counts as 10.0, missing or zero attendance and
engagement count as 100, and missing or zero fees amount and backlogs
count as 0. -/
theorem C4_assignment_routing (counselors : List Counselor)
    (students : List Student) (hne : counselors ≠ [])
    (hid : (counselors.map Counselor.id).Nodup)
    (s : Student) (c : Counselor) (hc : c ∈ counselors) :
    (s ∈ assignedList (build_specialized_assignment counselors students) c.id ↔
      (s ∈ students ∧ routedCounselor counselors s = some c)) ∧
    routedCounselor counselors s =
      (counselorPool counselors s).get?
        (s.id % (counselorPool counselors s).length) ∧
    counselorPool counselors s =
      (if (specPool counselors (classify_student_area s)).isEmpty then counselors
       else specPool counselors (classify_student_area s)) ∧
    specPool counselors (classify_student_area s)
      = counselors.filter (fun d => decide (specKey d = classify_student_area s)) ∧
    (s.cluster_id = some 1 → classify_student_area s = "academic") ∧
    (s.cluster_id = some 2 → classify_student_area s = "financial") ∧
    (s.cluster_id = some 3 → classify_student_area s = "attendance") ∧
    (s.cluster_id ≠ some 1 → s.cluster_id ≠ some 2 → s.cluster_id ≠ some 3 →
      classify_student_area s =
        (if s.fees_pending.getD false ∨ pyOrQ s.fees_amount_due 0 > 0 then
          "financial"
         else if pyOrZ s.backlogs 0 ≥ 2 ∨ pyOrQ s.cgpa 10 < 6 then "academic"
         else if pyOrQ s.attendance_percentage 100 < 75 ∨
             pyOrQ s.bot_engagement_score 100 < 40 then "attendance"
         else "general")) := by
  refine ⟨⟨?_, ?_⟩, rfl, rfl, ?_, ?_, ?_, ?_, ?_⟩
  · intro h
    rw [build_assignedList counselors students hne c hc, List.mem_filter] at h
    have h2 : routedId counselors s = some c.id := by simpa using h.2
    obtain ⟨d, hd⟩ := routed_exists hne s
    have hdc : d.id = c.id := by
      simp only [routedId, hd, Option.map_some] at h2
      exact Option.some.inj h2
    have hde : d = c := List.inj_on_of_nodup_map hid (routed_mem hd) hc hdc
    exact ⟨h.1, hde ▸ hd⟩
  · intro h
    rw [build_assignedList counselors students hne c hc, List.mem_filter]
    exact ⟨h.1, by simp [routedId, h.2]⟩
  · rfl
  · intro h
    unfold classify_student_area
    rw [if_pos h]
  · intro h
    unfold classify_student_area
    rw [if_neg (by simp [h]), if_pos h]
  · intro h
    unfold classify_student_area
    rw [if_neg (by simp [h]), if_neg (by simp [h]), if_pos h]
  · intro h1 h2 h3
    unfold classify_student_area
    rw [if_neg h1, if_neg h2, if_neg h3]

/-- A student routed to the academic counselor: cgpa 5 triggers the
academic heuristic. -/
def stAcad : Student :=
  { sampleStudent with id := 4, cgpa := some 5 }

/-- Witness for C4: the routing characterization instantiated on a
concrete roster and a concrete academically weak student. -/
theorem C4_assignment_routing_witness :
    (stAcad ∈ assignedList (build_specialized_assignment CW [stAcad]) cAcadW.id ↔
      (stAcad ∈ [stAcad] ∧ routedCounselor CW stAcad = some cAcadW)) ∧
    routedCounselor CW stAcad =
      (counselorPool CW stAcad).get?
        (stAcad.id % (counselorPool CW stAcad).length) ∧
    counselorPool CW stAcad =
      (if (specPool CW (classify_student_area stAcad)).isEmpty then CW
       else specPool CW (classify_student_area stAcad)) ∧
    specPool CW (classify_student_area stAcad)
      = CW.filter (fun d => decide (specKey d = classify_student_area stAcad)) ∧
    (stAcad.cluster_id = some 1 → classify_student_area stAcad = "academic") ∧
    (stAcad.cluster_id = some 2 → classify_student_area stAcad = "financial") ∧
    (stAcad.cluster_id = some 3 → classify_student_area stAcad = "attendance") ∧
    (stAcad.cluster_id ≠ some 1 → stAcad.cluster_id ≠ some 2 →
      stAcad.cluster_id ≠ some 3 →
      classify_student_area stAcad =
        (if stAcad.fees_pending.getD false ∨ pyOrQ stAcad.fees_amount_due 0 > 0 then
          "financial"
         else if pyOrZ stAcad.backlogs 0 ≥ 2 ∨ pyOrQ stAcad.cgpa 10 < 6 then
          "academic"
         else if pyOrQ stAcad.attendance_percentage 100 < 75 ∨
             pyOrQ stAcad.bot_engagement_score 100 < 40 then "attendance"
         else "general")) :=
  C4_assignment_routing CW [stAcad] (by decide) (by decide) stAcad cAcadW
    (by decide)

/-- The area rule exactly as the claim words it: cluster rules first,
then plain comparisons on the attributes (missing values defaulted as
in the code, but zero values taken at face value). -/
def spec_area (s : Student) : String :=
  if s.cluster_id = some 1 then "academic"
  else if s.cluster_id = some 2 then "financial"
  else if s.cluster_id = some 3 then "attendance"
  else if s.fees_pending.getD false ∨ s.fees_amount_due.getD 0 > 0 then
    "financial"
  else if s.backlogs.getD 0 ≥ 2 ∨ s.cgpa.getD 10 < 6 then "academic"
  else if s.attendance_percentage.getD 100 < 75 ∨
      s.bot_engagement_score.getD 100 < 40 then "attendance"
  else "general"

/-- A student whose cgpa is exactly 0: the claim heuristic calls it
academic, the code's Python-or default turns the 0 into 10.0. -/
def stZero : Student :=
  { sampleStudent with cgpa := some 0 }

/-- Counterexample for C4 as stated: for a student with cgpa 0 the claim
heuristic yields area academic and would route to the unique academic
counselor, but the code classifies the student general and routes it to
the general counselor instead. -/
theorem C4_assignment_routing_counterexample :
    spec_area stZero = "academic" ∧
    classify_student_area stZero = "general" ∧
    specPool CW (spec_area stZero) = [cAcadW] ∧
    (specPool CW (spec_area stZero)).get?
      (stZero.id % (specPool CW (spec_area stZero)).length) = some cAcadW ∧
    stZero ∈ assignedList (build_specialized_assignment CW [stZero]) cGenW.id ∧
    stZero ∉ assignedList (build_specialized_assignment CW [stZero]) cAcadW.id ∧
    cAcadW ≠ cGenW := by decide

end SOS
